import Mathlib

/-!
Verification of the basis-tracker specification against the repository's
source files `create_test_note_and_redeem.py` and `test_api.py`, together
with a model of the Note & Redemption Engine taken from the specification
(the engine itself, the Rust `basis_server`, is not among the source files;
only its Python callers are).
-/

namespace BasisTracker

/-- JSON-like values, used to model the request bodies the Python scripts
build with dict literals and the response bodies they parse. -/
inductive JVal where
  | str (s : String)
  | num (n : Nat)
  | bool (b : Bool)
  | arr (elems : List JVal)
  | obj (fields : List (String × JVal))

/-- Key lookup in a JSON object field list (first match), as Python dict
access on a parsed body. -/
def jlookup (fields : List (String × JVal)) (k : String) : Option JVal :=
  match fields.find? (fun p => p.1 == k) with
  | some p => some p.2
  | none => none

/-- Key presence in a JSON object field list, as Python `k in d`. -/
def jhas (fields : List (String × JVal)) (k : String) : Bool :=
  fields.any (fun p => p.1 == k)

/-! ### Literals from `create_test_note_and_redeem.py` -/

/-- The issuer test key from `create_test_note_and_redeem.py` line 20. -/
def issuer_pub_key_hex : String :=
  "02dada811a888cd0dc7a0a41739a3ad9b0f427741fe6ca19700cf1a51200c96bf7"

/-- The recipient test key from `create_test_note_and_redeem.py` line 21. -/
def recipient_pub_key_hex : String :=
  "032ff012ec2a75bc2007aa15c40a0aaf28bbfd98150b3d116b63a3b4c052f41631"

/-- The mock signature literal from `create_test_note_and_redeem.py` line 31,
which the code's comment describes as a 65-byte mock signature. -/
def mock_signature : String :=
  "000102030405060708090a0b0c0d0e0f000102030405060708090a0b0c0d0e0f000102030405060708090a0b0c0d0e0f000102030405060708090a0b0c0d0e0f000102"

/-- The `note_data` dictionary that `main` POSTs to `/notes`
(`create_test_note_and_redeem.py` lines 36-42); the timestamp is the runtime
value of `int(time.time())`, kept as a parameter. -/
def note_data (timestamp : Nat) : List (String × JVal) :=
  [("recipient_pubkey", .str recipient_pub_key_hex),
   ("amount", .num 1000),
   ("timestamp", .num timestamp),
   ("signature", .str mock_signature),
   ("issuer_pubkey", .str issuer_pub_key_hex)]

/-- The `redemption_data` dictionary that `main` POSTs to `/redeem`
(`create_test_note_and_redeem.py` lines 61-66). It has no signature field. -/
def redemption_data (timestamp : Nat) : List (String × JVal) :=
  [("issuer_pubkey", .str issuer_pub_key_hex),
   ("recipient_pubkey", .str recipient_pub_key_hex),
   ("amount", .num 500),
   ("timestamp", .num timestamp)]

/-- The `redemption_prep_data` dictionary that `main` POSTs to
`/redemption/prepare` (`create_test_note_and_redeem.py` lines 79-84). -/
def redemption_prep_data (timestamp : Nat) : List (String × JVal) :=
  [("issuer_pubkey", .str issuer_pub_key_hex),
   ("recipient_pubkey", .str recipient_pub_key_hex),
   ("amount", .num 500),
   ("timestamp", .num timestamp)]

/-- Removing the optional signature field from a request body. -/
def remove_signature_field (body : List (String × JVal)) : List (String × JVal) :=
  body.filter (fun p => p.1 != "signature")

/-- The statuses `main` accepts as note-creation success when it branches
with `if response.status_code in [200, 201]`
(`create_test_note_and_redeem.py` line 50). -/
def main_accepted_statuses : List Nat := [200, 201]

/-- The note-creation input field names as the spec lists them:
`{recipient_pubkey, amount, timestamp, signature, issuer_pubkey}`.
This definition follows the spec's words, for comparison with `note_data`. -/
def spec_note_creation_fields : List String :=
  ["recipient_pubkey", "amount", "timestamp", "signature", "issuer_pubkey"]

/-! ### The Note & Redemption Engine, modelled from the specification -/

/-- Modelled from the spec: the Note record of the Note Store (missing from
the source files; only its HTTP callers are present): issuer and recipient
public keys, original and remaining amounts, issue timestamp and the
issuer's signature over the canonical note message. -/
structure Note where
  issuer_pubkey : String
  recipient_pubkey : String
  original_amount : Nat
  remaining_amount : Nat
  issued_at : Nat
  issuer_signature : String
deriving DecidableEq

/-- Modelled from the spec: the Reserve record of the Reserve Tracker
(missing from the source files): custody box id, owner public key,
collateral amount and accumulated debt. -/
structure Reserve where
  box_id : String
  owner_pubkey : String
  collateral_amount : Nat
  total_debt : Nat
deriving DecidableEq

/-- Modelled from the spec: the combined state of the Note Store and the
Reserve Tracker, the two stores the Redemption Engine coordinates. -/
structure TrackerState where
  notes : List Note
  reserves : List Reserve
deriving DecidableEq

/-- Modelled from the spec: the canonical message over (issuer, recipient,
amount, timestamp) that authorizes a note creation or a redemption; the
exact byte encoding is opaque, so the message is kept as the tuple of the
semantic fields it deterministically encodes. -/
def canonical_message (issuer recipient : String) (amount timestamp : Nat) :
    String × String × Nat × Nat :=
  (issuer, recipient, amount, timestamp)

/-- Modelled from the spec: the Signature Verifier contract
`verify(pubkey, message, signature) -> bool`; the fixed elliptic-curve
scheme itself is outside the model, so a verifier is any such function. -/
abbrev Verifier : Type :=
  String → String × String × Nat × Nat → String → Bool

/-- Modelled from the spec: the error taxonomy of section 7. -/
inductive Err where
  | invalidSignature
  | duplicateNote
  | noteNotFound
  | insufficientBalance
  | unauthorized
  | insufficientCollateral
  | malformedKey
  | malformedAmount
deriving DecidableEq

/-- Modelled from the spec: a RedemptionRequest with its optional
authorization signature. -/
structure RedemptionRequest where
  issuer_pubkey : String
  recipient_pubkey : String
  amount : Nat
  timestamp : Nat
  signature : Option String
deriving DecidableEq

/-- Modelled from the spec: the redemption receipt — the note's new
remaining amount, the reserves touched, and a redemption id derived
deterministically from (issuer, recipient, amount, timestamp). -/
structure RedemptionReceipt where
  remaining_amount : Nat
  touched_box_ids : List String
  redemption_id : String × String × Nat × Nat
deriving DecidableEq

/-- Modelled from the spec: the note-creation input
`{recipient_pubkey, amount, timestamp, signature, issuer_pubkey}`. -/
structure NoteCreationRequest where
  recipient_pubkey : String
  amount : Nat
  timestamp : Nat
  signature : String
  issuer_pubkey : String
deriving DecidableEq

/-- Modelled from the spec: `get_note(issuer, recipient)` of the Note Store,
keyed by the (issuer, recipient) pair. -/
def get_note (st : TrackerState) (issuer recipient : String) : Option Note :=
  st.notes.find? (fun n => n.issuer_pubkey == issuer && n.recipient_pubkey == recipient)

/-- Modelled from the spec: the debit of the Note Store inside a committed
redemption — the matching note's remaining amount is decremented. -/
def debit_note (notes : List Note) (issuer recipient : String) (amount : Nat) :
    List Note :=
  notes.map (fun n =>
    if n.issuer_pubkey == issuer && n.recipient_pubkey == recipient then
      { n with remaining_amount := n.remaining_amount - amount }
    else n)

/-- Modelled from the spec: `list_reserves(owner_pubkey)` of the Reserve
Tracker — that owner's reserves, in insertion order. -/
def list_reserves (st : TrackerState) (owner : String) : List Reserve :=
  st.reserves.filter (fun r => r.owner_pubkey == owner)

/-- Modelled from the spec: `available_collateral(owner_pubkey)` — the sum
over the owner's reserves of `collateral_amount - total_debt`. -/
def available_collateral (st : TrackerState) (owner : String) : Nat :=
  ((list_reserves st owner).map (fun r => r.collateral_amount - r.total_debt)).sum

/-- Modelled from the spec: `increase_debt(owner_pubkey, amount)` of the
Reserve Tracker — a deterministic selection spreads the increase over the
owner's reserves without any reserve's debt exceeding its collateral, or
fails (`none`, the InsufficientCollateral case). The spec leaves the exact
selection policy open as a design choice; this model takes reserves greedily
in insertion order. Also returns the box ids of the reserves touched. -/
def increase_debt : List Reserve → String → Nat → Option (List Reserve × List String)
  | [], _, amount => if amount = 0 then some ([], []) else none
  | r :: rs, owner, amount =>
    if r.owner_pubkey == owner then
      let take := min amount (r.collateral_amount - r.total_debt)
      match increase_debt rs owner (amount - take) with
      | some (rs2, touched) =>
          some ({ r with total_debt := r.total_debt + take } :: rs2,
                if take = 0 then touched else r.box_id :: touched)
      | none => none
    else
      match increase_debt rs owner amount with
      | some (rs2, touched) => some (r :: rs2, touched)
      | none => none

/-- Modelled from the spec: the authorization check of redemption step 3 —
the request carries a signature over the canonical redemption message
verified against the issuer key or against the recipient key; a request
with no signature is never authorized. -/
def authorized (verify : Verifier) (req : RedemptionRequest) : Bool :=
  match req.signature with
  | none => false
  | some s =>
    let msg := canonical_message req.issuer_pubkey req.recipient_pubkey
      req.amount req.timestamp
    verify req.issuer_pubkey msg s || verify req.recipient_pubkey msg s

/-- Modelled from the spec: `redeem(request)` of the Redemption Engine
(section 4.4), each step short-circuiting on failure with no partial
mutation: note lookup, balance validation, authorization, collateral check,
then the atomic commit of the note debit and the reserve debt increase. -/
def redeem (verify : Verifier) (st : TrackerState) (req : RedemptionRequest) :
    Except Err RedemptionReceipt × TrackerState :=
  match get_note st req.issuer_pubkey req.recipient_pubkey with
  | none => (.error .noteNotFound, st)
  | some note =>
    if req.amount = 0 || note.remaining_amount < req.amount then
      (.error .insufficientBalance, st)
    else if ! authorized verify req then
      (.error .unauthorized, st)
    else if available_collateral st req.issuer_pubkey < req.amount then
      (.error .insufficientCollateral, st)
    else
      match increase_debt st.reserves req.issuer_pubkey req.amount with
      | none => (.error .insufficientCollateral, st)
      | some (reserves2, touched) =>
        ({ remaining_amount := note.remaining_amount - req.amount,
           touched_box_ids := touched,
           redemption_id := (req.issuer_pubkey, req.recipient_pubkey,
             req.amount, req.timestamp) : RedemptionReceipt } |> Except.ok,
         { notes := debit_note st.notes req.issuer_pubkey req.recipient_pubkey req.amount,
           reserves := reserves2 })

/-- Modelled from the spec: `create_note` of the Note Store (section 4.2) —
positive amount, no live note for the pair, and the issuer's signature over
the canonical note message; on success a note with
`remaining_amount = amount` is persisted. -/
def create_note (verify : Verifier) (st : TrackerState) (req : NoteCreationRequest) :
    Except Err Note × TrackerState :=
  if req.amount = 0 then (.error .malformedAmount, st)
  else
    match get_note st req.issuer_pubkey req.recipient_pubkey with
    | some _ => (.error .duplicateNote, st)
    | none =>
      if ! verify req.issuer_pubkey
          (canonical_message req.issuer_pubkey req.recipient_pubkey
            req.amount req.timestamp) req.signature then
        (.error .invalidSignature, st)
      else
        let note : Note :=
          { issuer_pubkey := req.issuer_pubkey,
            recipient_pubkey := req.recipient_pubkey,
            original_amount := req.amount,
            remaining_amount := req.amount,
            issued_at := req.timestamp,
            issuer_signature := req.signature }
        (.ok note, { st with notes := st.notes ++ [note] })

/-- Modelled from the spec: the HTTP-style status mapping of note-creation
outcomes — 201 created, 409 duplicate, 400 validation/signature failure. -/
def create_status : Except Err Note → Nat
  | .ok _ => 201
  | .error .duplicateNote => 409
  | .error _ => 400

/-- A committed operation against the two stores: a note creation or a
redemption. -/
inductive Op where
  | createOp (req : NoteCreationRequest)
  | redeemOp (req : RedemptionRequest)

/-- The state after one committed operation. -/
def apply_op (verify : Verifier) (st : TrackerState) : Op → TrackerState
  | .createOp req => (create_note verify st req).2
  | .redeemOp req => (redeem verify st req).2

/-- The state after a sequence of committed operations. -/
def run_ops (verify : Verifier) (st : TrackerState) (ops : List Op) : TrackerState :=
  ops.foldl (apply_op verify) st

/-- The per-reserve over-collateralization invariant:
`total_debt` never exceeds `collateral_amount`. -/
def reserve_ok (r : Reserve) : Prop :=
  r.total_debt ≤ r.collateral_amount

/-- Every reserve of the state is over-collateralized. -/
def reserves_ok (st : TrackerState) : Prop :=
  ∀ r ∈ st.reserves, reserve_ok r

/-- An issuer's aggregate debt over the reserves the listing reports. -/
def sum_debt (st : TrackerState) (owner : String) : Nat :=
  ((list_reserves st owner).map Reserve.total_debt).sum

/-- An issuer's aggregate collateral over the reserves the listing reports. -/
def sum_collateral (st : TrackerState) (owner : String) : Nat :=
  ((list_reserves st owner).map Reserve.collateral_amount).sum

/-! ### The reserve-listing endpoint and `test_api.py` -/

/-- Modelled from the spec: the JSON shape of one reserve element of the
reserve-listing response, with fields box_id, owner_pubkey,
collateral_amount, total_debt. -/
def reserve_to_json (r : Reserve) : JVal :=
  .obj [("box_id", .str r.box_id),
        ("owner_pubkey", .str r.owner_pubkey),
        ("collateral_amount", .num r.collateral_amount),
        ("total_debt", .num r.total_debt)]

/-- Modelled from the spec: the body of `GET /reserves/issuer/{pubkey}`
(missing from the source files, which hold only its test client):
the envelope `{success: true, data: [...]}` over the issuer's reserves. -/
def reserves_response (st : TrackerState) (issuer_pubkey : String) : JVal :=
  .obj [("success", .bool true),
        ("data", .arr ((list_reserves st issuer_pubkey).map reserve_to_json))]

/-- The test key `test_reserve_api` puts in the request path
(`test_api.py` line 23). -/
def test_pubkey : String :=
  "010101010101010101010101010101010101010101010101010101010101010101"

/-- The assertion block of `test_reserve_api` on the parsed response body
(`test_api.py` lines 36-46): the success flag, the presence of `data`, that
`data` is a list, and, when it is non-empty, that its first element carries
the four reserve fields and that its owner_pubkey equals the requested key. -/
def test_reserve_assertions (body : JVal) (pubkey : String) : Bool :=
  match body with
  | .obj fields =>
    (match jlookup fields "success" with
     | some (.bool true) => true
     | _ => false) &&
    jhas fields "data" &&
    (match jlookup fields "data" with
     | some (.arr elems) =>
       match elems with
       | [] => true
       | first :: _ =>
         match first with
         | .obj rf =>
           jhas rf "box_id" && jhas rf "owner_pubkey" &&
           jhas rf "collateral_amount" && jhas rf "total_debt" &&
           (match jlookup rf "owner_pubkey" with
            | some (.str s) => s == pubkey
            | _ => false)
         | _ => false
     | _ => false)
  | _ => false

/-! ### Control flow of `test_reserve_api` -/

/-- A Python exception raised during `test_reserve_api`, classified by
whether it is an `Exception` subclass (caught by `except Exception`) or a
bare `BaseException` such as `KeyboardInterrupt` (not caught, but a
`finally` block still runs before it propagates). -/
inductive PyExc where
  | assertionError
  | requestTimeout
  | otherException
  | baseExceptionOnly
deriving DecidableEq

/-- Whether the exception is caught by `except Exception`. -/
def PyExc.isException : PyExc → Bool
  | .baseExceptionOnly => false
  | _ => true

/-- The observable actions of `test_reserve_api` (`test_api.py`):
spawning the server subprocess, the startup sleep, the HTTP request, JSON
parsing, the assertion block, prints, and the `finally` block's
`terminate()` and `wait()` on the subprocess. -/
inductive Act where
  | spawnServer
  | sleepWait
  | httpGet
  | jsonParse
  | assertBlock
  | printOut
  | terminateServer
  | waitServer
deriving DecidableEq

/-- The environment of one run of `test_reserve_api`: whether each fallible
call inside the `try` block completes or raises — `requests.get` (line 28),
`response.json()` (lines 32 and 35), and the assertion block (lines 36-46,
raising `AssertionError` on a failed assert). -/
structure RunEnv where
  get_outcome : Option PyExc
  json_outcome : Option PyExc
  assert_outcome : Option Bool

/-- The `try` block of `test_reserve_api` (`test_api.py` lines 21-48): the
action trace it produces and the exception it raises, if any. `print` and
the non-raising steps always complete; an assertion failure raises
`AssertionError`. -/
def run_try (env : RunEnv) : List Act × Option PyExc :=
  match env.get_outcome with
  | some e => ([.printOut, .httpGet], some e)
  | none =>
    match env.json_outcome with
    | some e => ([.printOut, .httpGet, .printOut, .printOut, .jsonParse], some e)
    | none =>
      match env.assert_outcome with
      | some false =>
        ([.printOut, .httpGet, .printOut, .printOut, .jsonParse, .printOut,
          .jsonParse, .assertBlock], some .assertionError)
      | _ =>
        ([.printOut, .httpGet, .printOut, .printOut, .jsonParse, .printOut,
          .jsonParse, .assertBlock, .printOut], none)

/-- The whole of `test_reserve_api` (`test_api.py` lines 8-56): spawn the
server, sleep, run the `try` block, run the `except Exception` handler when
the raised exception is an `Exception`, and always run the `finally` block
(`terminate()` then `wait()`) before returning or re-raising. -/
def test_reserve_api (env : RunEnv) : List Act × Option PyExc :=
  let opening := [Act.spawnServer, Act.sleepWait]
  let step := run_try env
  match step.2 with
  | none => (opening ++ step.1 ++ [Act.terminateServer, Act.waitServer], none)
  | some e =>
    if e.isException then
      (opening ++ step.1 ++ [Act.printOut, Act.terminateServer, Act.waitServer], none)
    else
      (opening ++ step.1 ++ [Act.terminateServer, Act.waitServer], some e)

/-! ### The example scenario of `main` -/

/-- The RedemptionRequest denoted by the `redemption_data` body `main`
POSTs to `/redeem` (`create_test_note_and_redeem.py` lines 61-66): amount
500 against the note from issuer to recipient, with no signature field. -/
def main_redeem_request (timestamp : Nat) : RedemptionRequest :=
  { issuer_pubkey := issuer_pub_key_hex,
    recipient_pubkey := recipient_pub_key_hex,
    amount := 500,
    timestamp := timestamp,
    signature := none }

/-- The state after `main`'s note of amount 1000 has been created, with one
issuer reserve holding ample collateral. -/
def scenario_state (timestamp : Nat) : TrackerState :=
  { notes := [{ issuer_pubkey := issuer_pub_key_hex,
                recipient_pubkey := recipient_pub_key_hex,
                original_amount := 1000,
                remaining_amount := 1000,
                issued_at := timestamp,
                issuer_signature := mock_signature }],
    reserves := [{ box_id := "box-main",
                   owner_pubkey := issuer_pub_key_hex,
                   collateral_amount := 10000,
                   total_debt := 0 }] }

/-- The conjunction of the reserve invariants observable through the
listing interface: every stored reserve is over-collateralized, each
issuer's aggregate debt is bounded by its aggregate collateral, and every
reserve the listing returns is over-collateralized. -/
def aggregate_invariant (st : TrackerState) : Prop :=
  (∀ r ∈ st.reserves, r.total_debt ≤ r.collateral_amount) ∧
  (∀ pk, sum_debt st pk ≤ sum_collateral st pk) ∧
  (∀ pk r, r ∈ list_reserves st pk → r.total_debt ≤ r.collateral_amount)

/-! ### Helper lemmas -/

/-- `increase_debt` keeps every reserve of a successful result
over-collateralized when every input reserve was. -/
theorem increase_debt_preserves (owner : String) :
    ∀ (rs : List Reserve) (amount : Nat) (out : List Reserve × List String),
      increase_debt rs owner amount = some out →
      (∀ r ∈ rs, reserve_ok r) → ∀ r ∈ out.1, reserve_ok r := by
  intro rs
  induction rs with
  | nil =>
    intro amount out h hok r hr
    by_cases ha : amount = 0
    · rw [increase_debt, if_pos ha] at h
      cases h
      simp at hr
    · rw [increase_debt, if_neg ha] at h
      cases h
  | cons r0 rs ih =>
    intro amount out h hok r hr
    by_cases ho : (r0.owner_pubkey == owner) = true
    · rw [increase_debt, if_pos ho] at h
      cases hrec : increase_debt rs owner
          (amount - min amount (r0.collateral_amount - r0.total_debt)) with
      | none => simp only [hrec] at h; exact Option.noConfusion h
      | some out2 =>
        obtain ⟨rs2, touched⟩ := out2
        simp only [hrec] at h
        cases h
        rcases List.mem_cons.mp hr with rfl | hrs
        · have hd : r0.total_debt ≤ r0.collateral_amount :=
            hok r0 (List.mem_cons_self r0 rs)
          have hmin := Nat.min_le_right amount (r0.collateral_amount - r0.total_debt)
          simp only [reserve_ok]
          omega
        · exact ih _ _ hrec (fun r hm => hok r (List.mem_cons_of_mem r0 hm)) r hrs
    · rw [increase_debt, if_neg ho] at h
      cases hrec : increase_debt rs owner amount with
      | none => simp only [hrec] at h; exact Option.noConfusion h
      | some out2 =>
        obtain ⟨rs2, touched⟩ := out2
        simp only [hrec] at h
        cases h
        rcases List.mem_cons.mp hr with rfl | hrs
        · exact hok r (List.mem_cons_self r rs)
        · exact ih _ _ hrec (fun r hm => hok r (List.mem_cons_of_mem r0 hm)) r hrs

/-- `redeem` preserves the per-reserve over-collateralization invariant. -/
theorem redeem_preserves_reserves_ok (verify : Verifier) (st : TrackerState)
    (req : RedemptionRequest) (hok : reserves_ok st) :
    reserves_ok (redeem verify st req).2 := by
  unfold redeem
  split
  · exact hok
  · split
    · exact hok
    · split
      · exact hok
      · split
        · exact hok
        · split
          · exact hok
          · next reserves2 touched heq =>
            intro r hr
            exact increase_debt_preserves _ _ _ _ heq hok r hr

/-- `create_note` never touches the reserves. -/
theorem create_note_reserves_eq (verify : Verifier) (st : TrackerState)
    (req : NoteCreationRequest) :
    ((create_note verify st req).2).reserves = st.reserves := by
  unfold create_note
  split
  · rfl
  · split
    · rfl
    · split
      · rfl
      · rfl

/-- Any sequence of committed operations preserves the per-reserve
over-collateralization invariant. -/
theorem run_ops_preserves (verify : Verifier) (ops : List Op) :
    ∀ st : TrackerState, reserves_ok st → reserves_ok (run_ops verify st ops) := by
  induction ops with
  | nil => intro st hok; exact hok
  | cons op ops ih =>
    intro st hok
    refine ih (apply_op verify st op) ?_
    cases op with
    | createOp req =>
      intro r hr
      rw [apply_op, create_note_reserves_eq] at hr
      exact hok r hr
    | redeemOp req => exact redeem_preserves_reserves_ok verify st req hok

/-! ### Claim theorems -/

/-- Claim C3: the spec requires every externally submitted signature to be
65 bytes hex-encoded as exactly 130 hexadecimal characters, and the code's
own comment calls its literal a 65-byte mock signature, but the signature
string `main` places in the note-creation request has 134 characters
(67 bytes), not 130. -/
theorem mock_signature_has_134_chars :
    mock_signature.length = 134 ∧ mock_signature.length ≠ 130 := by
  have h : mock_signature.length = 134 := rfl
  exact ⟨h, by rw [h]; decide⟩

/-- Claim C6: the `note_data` dictionary `main` POSTs to `/notes` has
exactly the field names `recipient_pubkey, amount, timestamp, signature,
issuer_pubkey` that the spec lists for note creation. -/
theorem note_data_fields_match_spec (timestamp : Nat) :
    (note_data timestamp).map Prod.fst = spec_note_creation_fields := rfl

/-- Claim C7: the `redemption_prep_data` dictionary `main` POSTs to
`/redemption/prepare` equals the `redemption_data` dictionary it POSTs to
`/redeem` with any signature field removed. -/
theorem prep_data_is_redemption_data_minus_signature (timestamp : Nat) :
    redemption_prep_data timestamp
      = remove_signature_field (redemption_data timestamp) := rfl

/-- Claim C4: note-creation outcomes map to HTTP-style statuses 201 for a
created note, 400 for validation/signature failure and 409 for a duplicate,
so creation success is observed exactly as status 201; `main` branches after
the POST to `/notes` on the accepted-status set `[200, 201]`, which contains
the success status 201. -/
theorem note_creation_status_mapping :
    (∀ n : Note, create_status (Except.ok n) = 201) ∧
    create_status (Except.error Err.invalidSignature) = 400 ∧
    create_status (Except.error Err.malformedAmount) = 400 ∧
    create_status (Except.error Err.duplicateNote) = 409 ∧
    (∀ r : Except Err Note, create_status r = 201 ↔ ∃ n, r = Except.ok n) ∧
    main_accepted_statuses = [200, 201] ∧
    201 ∈ main_accepted_statuses := by
  refine ⟨fun n => rfl, rfl, rfl, rfl, ?_, rfl, by decide⟩
  intro r
  cases r with
  | ok n => simp [create_status]
  | error e => cases e <;> simp [create_status]

/-- Claim C10: on every execution path of `test_reserve_api` — normal
completion, failed assertion, request timeout, or any other exception from
the calls inside the `try` block — the action trace ends with terminating
and then waiting on the spawned server subprocess, so the function never
finishes leaving the child process running. -/
theorem server_always_terminated (env : RunEnv) :
    ((test_reserve_api env).1).drop ((test_reserve_api env).1.length - 2)
      = [Act.terminateServer, Act.waitServer] := by
  obtain ⟨g, j, a⟩ := env
  cases g with
  | some e => cases e <;> rfl
  | none =>
    cases j with
    | some e => cases e <;> rfl
    | none =>
      cases a with
      | none => rfl
      | some b => cases b <;> rfl

/-- Claim C9: every reserve the listing for an issuer returns has
`owner_pubkey` equal to the issuer key of the request: the listing never
returns another owner's reserve. -/
theorem listed_reserves_belong_to_issuer (st : TrackerState) (pk : String)
    (r : Reserve) (hmem : r ∈ list_reserves st pk) : r.owner_pubkey = pk := by
  have hmem2 : r ∈ st.reserves.filter (fun x => x.owner_pubkey == pk) := hmem
  have h := List.of_mem_filter hmem2
  exact eq_of_beq h

/-- Witness for claim C9 at a concrete one-reserve state. -/
theorem listed_reserves_belong_to_issuer_witness :
    (⟨"box-1", "pk-a", 100, 10⟩ : Reserve)
        ∈ list_reserves ⟨[], [⟨"box-1", "pk-a", 100, 10⟩]⟩ "pk-a" ∧
    (⟨"box-1", "pk-a", 100, 10⟩ : Reserve).owner_pubkey = "pk-a" :=
  ⟨by decide,
   listed_reserves_belong_to_issuer ⟨[], [⟨"box-1", "pk-a", 100, 10⟩]⟩ "pk-a"
     ⟨"box-1", "pk-a", 100, 10⟩ (by decide)⟩

/-- Claim C8: the reserve-listing response body is the envelope
`{success: true, data: [...]}` over reserve objects carrying box_id,
owner_pubkey, collateral_amount and total_debt, and the whole assertion
block of `test_reserve_api` holds on it. -/
theorem reserves_response_passes_test_assertions (st : TrackerState) (pk : String) :
    test_reserve_assertions (reserves_response st pk) pk = true := by
  rw [reserves_response]
  cases h : list_reserves st pk with
  | nil => rfl
  | cons r rs =>
    have hr : (r.owner_pubkey == pk) = true := by
      have hmem : r ∈ st.reserves.filter (fun x => x.owner_pubkey == pk) := by
        have : r ∈ list_reserves st pk := by
          rw [h]; exact List.mem_cons_self r rs
        exact this
      have h2 := List.of_mem_filter hmem
      exact h2
    simp only [test_reserve_assertions, jlookup, jhas, reserve_to_json,
      List.map, List.find?, List.any]
    simp [hr]

/-- Membership in an issuer's reserve listing implies membership in the
stored reserves. -/
theorem mem_of_mem_list_reserves {st : TrackerState} {pk : String} {r : Reserve}
    (hr : r ∈ list_reserves st pk) : r ∈ st.reserves := by
  have h2 : r ∈ st.reserves.filter (fun x => x.owner_pubkey == pk) := hr
  exact List.mem_of_mem_filter h2

/-- Claim C2: after any sequence of committed operations from a state whose
reserves are over-collateralized, total_debt never exceeds
collateral_amount on any reserve, each issuer's aggregate debt is bounded by
its aggregate collateral, and every reserve element the listing for an
issuer returns satisfies total_debt ≤ collateral_amount. -/
theorem reserve_invariant_after_operations (verify : Verifier)
    (st : TrackerState) (ops : List Op) (hok : reserves_ok st) :
    aggregate_invariant (run_ops verify st ops) := by
  have h := run_ops_preserves verify ops st hok
  refine ⟨h, ?_, ?_⟩
  · intro pk
    rw [sum_debt, sum_collateral]
    refine List.sum_le_sum ?_
    intro r hr
    exact h r (mem_of_mem_list_reserves hr)
  · intro pk r hr
    exact h r (mem_of_mem_list_reserves hr)

/-- Witness for claim C2: the scenario state with one reserve of collateral
10000 and debt 0 is over-collateralized, and the invariant holds after
`main`'s creation-then-redemption sequence is committed against it. -/
theorem reserve_invariant_after_operations_witness :
    reserves_ok (scenario_state 0) ∧
    aggregate_invariant (run_ops (fun _ _ _ => true) (scenario_state 0)
      [Op.redeemOp ⟨issuer_pub_key_hex, recipient_pub_key_hex, 500, 0, some "aa"⟩]) :=
  ⟨by intro r hr
      simp only [scenario_state, List.mem_singleton] at hr
      subst hr
      exact Nat.zero_le _,
   reserve_invariant_after_operations (fun _ _ _ => true) (scenario_state 0)
     [Op.redeemOp ⟨issuer_pub_key_hex, recipient_pub_key_hex, 500, 0, some "aa"⟩]
     (by intro r hr
         simp only [scenario_state, List.mem_singleton] at hr
         subst hr
         exact Nat.zero_le _)⟩

/-- Counterexample to claim C1 as stated: an unsigned redemption request —
the one `main` submits to `/redeem`, at a state holding no notes — fails
with NoteNotFound, not Unauthorized: an unsigned request is not always
rejected as Unauthorized. -/
theorem unsigned_redeem_counterexample :
    (redeem (fun _ _ _ => true) ⟨[], []⟩ (main_redeem_request 1700000000)).1
        = Except.error Err.noteNotFound ∧
    Err.noteNotFound ≠ Err.unauthorized :=
  ⟨rfl, by decide⟩

/-- Claim C1 (amended): a redemption request carrying no signature accepted
by the verifier for the issuer or recipient key never succeeds and produces
zero mutation, and it fails with Unauthorized whenever the note lookup and
balance checks pass; in particular the unsigned request `main` submits to
`/redeem` against the freshly created note of 1000 is rejected as
Unauthorized with no state change. -/
theorem unsigned_redeem_rejected (verify : Verifier) (st : TrackerState)
    (req : RedemptionRequest) (hauth : authorized verify req = false) :
    ((redeem verify st req).2 = st ∧
      ∀ receipt, (redeem verify st req).1 ≠ Except.ok receipt) ∧
    (∀ note, get_note st req.issuer_pubkey req.recipient_pubkey = some note →
      0 < req.amount → req.amount ≤ note.remaining_amount →
      redeem verify st req = (Except.error Err.unauthorized, st)) := by
  constructor
  · rw [redeem]
    split
    · exact ⟨rfl, fun receipt h => Except.noConfusion h⟩
    · split
      · exact ⟨rfl, fun receipt h => Except.noConfusion h⟩
      · rw [hauth]
        exact ⟨rfl, fun receipt h => Except.noConfusion h⟩
  · intro note hnote hpos hle
    have hb : (decide (req.amount = 0)
        || decide (note.remaining_amount < req.amount)) = false := by
      simp only [Bool.or_eq_false_iff, decide_eq_false_iff_not]
      omega
    simp [redeem, hnote, hb, hauth]

/-- Witness for claim C1 at `main`'s scenario: the unsigned request against
the created note of 1000 is rejected as Unauthorized with no state change,
even under a verifier accepting every signature. -/
theorem unsigned_redeem_rejected_witness :
    authorized (fun _ _ _ => true) (main_redeem_request 1700000000) = false ∧
    0 < 500 ∧ 500 ≤ 1000 ∧
    redeem (fun _ _ _ => true) (scenario_state 1700000000)
        (main_redeem_request 1700000000)
      = (Except.error Err.unauthorized, scenario_state 1700000000) :=
  ⟨rfl, by decide, by decide,
   (unsigned_redeem_rejected (fun _ _ _ => true) (scenario_state 1700000000)
       (main_redeem_request 1700000000) rfl).2
     ⟨issuer_pub_key_hex, recipient_pub_key_hex, 1000, 1000, 1700000000,
       mock_signature⟩
     rfl (by decide) (by decide)⟩

/-- Claim C5: against a state holding the note of original amount 1000 with
remaining 1000 and one issuer reserve whose debt leaves room for 500, an
authorized redemption of 500 succeeds, remaining_amount becomes 500, and the
issuer's reserve total_debt increases by 500, staying bounded by its
collateral_amount. -/
theorem scenario_redeem_500_succeeds (verify : Verifier) (sig s0 bid : String)
    (ts c d : Nat)
    (hsig : verify issuer_pub_key_hex
      (canonical_message issuer_pub_key_hex recipient_pub_key_hex 500 ts) sig
        = true)
    (hcol : d + 500 ≤ c) :
    redeem verify
        ⟨[⟨issuer_pub_key_hex, recipient_pub_key_hex, 1000, 1000, ts, s0⟩],
         [⟨bid, issuer_pub_key_hex, c, d⟩]⟩
        ⟨issuer_pub_key_hex, recipient_pub_key_hex, 500, ts, some sig⟩
      = (Except.ok ⟨500, [bid],
           (issuer_pub_key_hex, recipient_pub_key_hex, 500, ts)⟩,
         ⟨[⟨issuer_pub_key_hex, recipient_pub_key_hex, 1000, 500, ts, s0⟩],
          [⟨bid, issuer_pub_key_hex, c, d + 500⟩]⟩) ∧
    d + 500 ≤ c := by
  refine ⟨?_, hcol⟩
  have hmin : min 500 (c - d) = 500 := Nat.min_eq_left (by omega)
  have h1 : get_note
      ⟨[⟨issuer_pub_key_hex, recipient_pub_key_hex, 1000, 1000, ts, s0⟩],
       [⟨bid, issuer_pub_key_hex, c, d⟩]⟩
      issuer_pub_key_hex recipient_pub_key_hex
      = some ⟨issuer_pub_key_hex, recipient_pub_key_hex, 1000, 1000, ts, s0⟩ :=
    rfl
  have h2 : authorized verify
      ⟨issuer_pub_key_hex, recipient_pub_key_hex, 500, ts, some sig⟩ = true := by
    simp only [authorized]
    rw [hsig]
    exact Bool.true_or _
  have h3 : available_collateral
      ⟨[⟨issuer_pub_key_hex, recipient_pub_key_hex, 1000, 1000, ts, s0⟩],
       [⟨bid, issuer_pub_key_hex, c, d⟩]⟩ issuer_pub_key_hex = c - d := rfl
  have h4 : ¬ (c - d < 500) := by omega
  have h5 : increase_debt [⟨bid, issuer_pub_key_hex, c, d⟩]
      issuer_pub_key_hex 500
      = some ([⟨bid, issuer_pub_key_hex, c, d + 500⟩], [bid]) := by
    simp [increase_debt, hmin]
  simp [redeem, h1, h2, h3, h4, h5, debit_note]

/-- Witness for claim C5 at concrete values: collateral 10000, debt 0, a
verifier accepting the signature. -/
theorem scenario_redeem_500_succeeds_witness :
    (fun _ _ _ => true : Verifier) issuer_pub_key_hex
        (canonical_message issuer_pub_key_hex recipient_pub_key_hex 500 0)
        "aa" = true ∧
    0 + 500 ≤ 10000 ∧
    (redeem (fun _ _ _ => true)
        ⟨[⟨issuer_pub_key_hex, recipient_pub_key_hex, 1000, 1000, 0,
            mock_signature⟩],
         [⟨"box-main", issuer_pub_key_hex, 10000, 0⟩]⟩
        ⟨issuer_pub_key_hex, recipient_pub_key_hex, 500, 0, some "aa"⟩
      = (Except.ok ⟨500, ["box-main"],
           (issuer_pub_key_hex, recipient_pub_key_hex, 500, 0)⟩,
         ⟨[⟨issuer_pub_key_hex, recipient_pub_key_hex, 1000, 500, 0,
             mock_signature⟩],
          [⟨"box-main", issuer_pub_key_hex, 10000, 0 + 500⟩]⟩) ∧
       0 + 500 ≤ 10000) :=
  ⟨rfl, by decide,
   scenario_redeem_500_succeeds (fun _ _ _ => true) "aa" mock_signature
     "box-main" 0 10000 0 rfl (by decide)⟩

end BasisTracker
